import Mathlib

/-!
Shallow embedding of the ServiceNow client library
(src/service_now_client.py together with exceptions.py, and the
near-duplicate variant src/servicenow_api_client/service_now_client.py).

Conventions of the embedding:
* Python strings become Lean `String`; Python lists become Lean `List`.
* The elements of a `search_list` are either plain strings or nested lists
  of strings, captured by `Elem`.
* Exceptions become an explicit error type `Err`; uncaught interpreter
  errors (IndexError, AttributeError) are modelled with `Err.pyError`.
* The HTTP transport is an external collaborator: each operation takes the
  responses it would receive as oracle arguments and returns, next to its
  result, the ordered list of HTTP requests it issued (`List Req`).
* `isinstance` checks on arguments that the Lean embedding already types
  as `String` (or structured data) always pass and are therefore dropped.
-/

namespace SN

/-- Error kinds: the four exception classes of exceptions.py plus a
constructor for uncaught Python interpreter errors. -/
inductive Err where
  | invalidFormat (msg : String)
  | invalidValue (msg : String)
  | emptyResult (msg : String)
  | responseError (msg : String)
  | pyError (msg : String)
  deriving DecidableEq

/-- One element of a search_list: a nested list of strings or a plain
string (scalar). -/
inductive Elem where
  | lst (l : List String)
  | str (s : String)
  deriving DecidableEq

/-- Python repr of a quote-free ASCII string (single quotes). -/
def pyStrRepr (s : String) : String := "\x27" ++ s ++ "\x27"

/-- Python repr of a list of strings, as produced by percent-s formatting
of a list value. -/
def pyListRepr (l : List String) : String :=
  "[" ++ String.intercalate ", " (l.map pyStrRepr) ++ "]"

/-- Python percent-s formatting of a search_list element. -/
def pyFmt : Elem → String
  | .str s => s
  | .lst l => pyListRepr l

/-- Python str.lower, for the ASCII strings the client handles (mapped
over the character list so that it reduces definitionally). -/
def pyLower (s : String) : String := String.mk (s.data.map Char.toLower)

/-- Python str of a tuple of strings (assumes at least two elements, as is
the case for every tuple the code prints). -/
def pyTupleRepr (l : List String) : String :=
  "(" ++ String.intercalate ", " (l.map pyStrRepr) ++ ")"

/-- The operator vocabulary of `search`, in source (insertion) order. -/
def operators : List (String × String) :=
  [("is", "="),
   ("is not", "!="),
   ("is one of", "IN"),
   ("starts with", "STARTSWITH"),
   ("ends with", "ENDSWITH"),
   ("contains", "LIKE"),
   ("does not contain", "NOT LIKE"),
   ("less than or is", "<="),
   ("greater than or is", ">="),
   ("same as", "SAMEAS"),
   ("is empty", "ISEMPTY"),
   ("is not empty", "ISNOTEMPTY"),
   ("is anything", "ANYTHING"),
   ("is empty string", "EMPTYSTRING")]

/-- Dictionary lookup `operators[k]`. -/
def opLookup (k : String) : Option String := operators.lookup k

/-- The operator names, in the order the dict iterates them. -/
def operatorNames : List String := operators.map Prod.fst

/-- The InvalidValue message for an unknown operator, naming the whole
vocabulary. -/
def invalidOperatorMsg : String :=
  "Operator value invalid. Choose one of the following:\n" ++ pyTupleRepr operatorNames

/-- The InvalidFormat message for a search_list that is not a list. -/
def searchListFormatMsg : String :=
  "\"searchList\" format incorrect. Simple or nested list expected"

/-- Result of processing one element of the for-loop over search_list:
possible exception, the (possibly mutated) element, the fragment appended
to the url, and whether the single-list flag was set. -/
structure StepOut where
  err : Option Err
  elem : Elem
  piece : String
  setsFlag : Bool
  deriving DecidableEq

/-- One iteration of the for-loop in `search` (lines 151-170): a nested
list contributes a caret-fragment (mutating itself by inserting the empty
string when its value element is missing); a scalar sets the
`single_list` flag.  A nested list with fewer than two elements raises an
uncaught IndexError; an unknown operator raises InvalidValue. -/
def elemStep : Elem → StepOut
  | .str s => ⟨none, .str s, "", true⟩
  | .lst [] => ⟨some (.pyError "IndexError"), .lst [], "", false⟩
  | .lst [f] => ⟨some (.pyError "IndexError"), .lst [f], "", false⟩
  | .lst (f :: op :: rest) =>
    let l2 := if rest.isEmpty then [f, op, ""] else f :: op :: rest
    let v := rest.headD ""
    match opLookup (pyLower op) with
    | some tok => ⟨none, .lst l2, "^" ++ f ++ tok ++ v, false⟩
    | none => ⟨some (.invalidValue invalidOperatorMsg), .lst l2, "", false⟩

/-- Outcome of the whole for-loop: possible exception, accumulated url
fragment, the search_list after mutation, and the `single_list` flag
(false models the variable being unbound). -/
structure LoopOut where
  err : Option Err
  frag : String
  elems : List Elem
  flag : Bool
  deriving DecidableEq

/-- The for-loop over search_list.  On an exception the loop stops; the
list keeps any mutation already performed. -/
def loopPhase : List Elem → String → List Elem → Bool → LoopOut
  | [], frag, acc, flag => ⟨none, frag, acc.reverse, flag⟩
  | e :: es, frag, acc, flag =>
    let st := elemStep e
    match st.err with
    | some err => ⟨some err, frag, acc.reverse ++ st.elem :: es, flag⟩
    | none => loopPhase es (frag ++ st.piece) (st.elem :: acc) (flag || st.setsFlag)

instance {ε α : Type} [DecidableEq ε] [DecidableEq α] : DecidableEq (Except ε α) := fun a b =>
  match a, b with
  | .error e, .error f =>
    if h : e = f then .isTrue (by rw [h]) else .isFalse (by simp [h])
  | .error _, .ok _ => .isFalse (by simp)
  | .ok _, .error _ => .isFalse (by simp)
  | .ok x, .ok y =>
    if h : x = y then .isTrue (by rw [h]) else .isFalse (by simp [h])

/-- Result of query compilation: the url fragment or an exception, plus
the search_list object after compilation (it can be mutated). -/
structure CompileOut where
  res : Except Err String
  elems : List Elem
  deriving DecidableEq

/-- The simple-list branch (lines 173-186): search_list[0] and the
operator token are appended, then search_list[2]; a missing third element
is inserted as the empty string (mutating the outer list).  Indexing past
the end or calling lower() on a list element is an uncaught error. -/
def simpleBranch (frag : String) (sl : List Elem) : CompileOut :=
  match sl with
  | [] => ⟨.error (.pyError "IndexError"), sl⟩
  | [_] => ⟨.error (.pyError "IndexError"), sl⟩
  | e0 :: e1 :: rest =>
    match e1 with
    | .lst l => ⟨.error (.pyError "AttributeError"), e0 :: .lst l :: rest⟩
    | .str op =>
      match opLookup (pyLower op) with
      | none => ⟨.error (.invalidValue invalidOperatorMsg), e0 :: .str op :: rest⟩
      | some tok =>
        match rest with
        | [] => ⟨.ok (frag ++ "^" ++ pyFmt e0 ++ tok), [e0, .str op, .str ""]⟩
        | v :: _ => ⟨.ok (frag ++ "^" ++ pyFmt e0 ++ tok ++ pyFmt v), e0 :: .str op :: rest⟩

/-- The query compiler of `search` (lines 150-192): run the for-loop; if
no element was a scalar the `single_list` flag is unbound and the
resulting UnboundLocalError is swallowed (the accumulated fragment
stands); otherwise a genuine Python list takes the simple-list branch and
anything else fails with InvalidFormat.  `slIsList` records whether the
search_list argument is a Python `list` instance. -/
def compileQuery (sl : List Elem) (slIsList : Bool) : CompileOut :=
  let lo := loopPhase sl "" [] false
  match lo.err with
  | some e => ⟨.error e, lo.elems⟩
  | none =>
    if lo.flag then
      if slIsList then simpleBranch lo.frag lo.elems
      else ⟨.error (.invalidFormat searchListFormatMsg), lo.elems⟩
    else ⟨.ok lo.frag, lo.elems⟩

/-- Client configuration fixed at construction (__init__); username,
password and the constant headers do not influence the modelled
behaviour and are omitted. -/
structure Client where
  instanceName : String
  empty_error : Bool
  deriving DecidableEq

/-- `self.instance` as set by __init__. -/
def Client.instanceUrl (c : Client) : String :=
  "https://" ++ c.instanceName ++ ".service-now.com"

/-- A record reference as returned by the search, carrying the fields the
operations read (`sys_id`, `number`). -/
structure Record where
  sys_id : String
  number : String
  deriving DecidableEq

/-- An HTTP request issued by the client, in issue order. -/
inductive Req where
  | get (url : String)
  | put (url : String) (body : String)
  | post (url : String) (body : String)
  | delete (url : String)
  deriving DecidableEq

/-- The response the search GET would receive: status code, the decoded
`result` list, the str of the whole decoded body (used in ResponseError
details) and the str of its `error` member. -/
structure SearchResp where
  status : Nat
  result : List Record
  jsonRepr : String
  errorField : String
  deriving DecidableEq

/-- What `search` can return to its caller: the record list, or the
Python value False (printed "No record found" case with
empty_error unset). -/
inductive SearchRet where
  | records (l : List Record)
  | falseRet
  deriving DecidableEq

/-- The fixed prefix of the search url (line 122-124). -/
def searchUrlPrefix (c : Client) (table : String) : String :=
  c.instanceUrl ++ "/api/now/table/" ++ table ++ "?sysparm_limit=50&sysparm_query=sysparm_query="

/-- The full search url for a compiled fragment. -/
def searchUrl (c : Client) (table frag fields : String) : String :=
  searchUrlPrefix c table ++ frag ++ "&sysparm_fields=" ++ fields

/-- `search` (lines 110-216): compile the query (raising on a bad
search_list before any request), issue the GET, raise ResponseError on a
non-200 status, and apply the empty-result policy: EmptyResult when
`empty_error` is set, the sentinel False otherwise. -/
def search (c : Client) (table : String) (sl : List Elem) (slIsList : Bool)
    (fields : String) (resp : SearchResp) : Except Err SearchRet × List Req :=
  match (compileQuery sl slIsList).res with
  | .error e => (.error e, [])
  | .ok frag =>
    let tr := [Req.get (searchUrl c table frag fields)]
    if resp.status ≠ 200 then
      (.error (.responseError
        ("Error code = " ++ toString resp.status ++ " , Error details = " ++ resp.jsonRepr)), tr)
    else if resp.result = [] then
      if c.empty_error then (.error (.emptyResult "No record found"), tr)
      else (.ok .falseRet, tr)
    else (.ok (.records resp.result), tr)

/-- What a batch operation returns: the Python value False or the result
dictionary (an insertion-ordered association list). -/
inductive OpRet where
  | sentinelFalse
  | dict (m : List (String × String))
  deriving DecidableEq

/-- Python dict assignment `m[k] = v`: overwrite in place or append. -/
def dictInsert (m : List (String × String)) (k v : String) : List (String × String) :=
  if m.any (fun kv => kv.1 == k) then m.map (fun kv => if kv.1 == k then (k, v) else kv)
  else m ++ [(k, v)]

/-- The response a per-record action would receive: status code and the
str of the `error` member of the decoded body. -/
structure RecResp where
  status : Nat
  errorField : String
  deriving DecidableEq

/-- Per-record outcome string shared by update/delete/change_state
(success status `okStatus`, otherwise the error descriptor). -/
def recOutcome (okStatus : Nat) (r : RecResp) : String :=
  if r.status ≠ okStatus then
    "Error Code " ++ toString r.status ++ ", " ++ r.errorField
  else "true"

/-- Python truthiness of what search returned: False and the empty list
are falsy. -/
def SearchRet.falsy : SearchRet → Bool
  | .falseRet => true
  | .records l => l.isEmpty

/-- The guard shared by every batch operation (e.g. update lines 81-86):
`if not incident_list` re-checks what search returned and applies the
empty-result policy, then the operation continues with the record list
(the fall-through arm for False is unreachable as False is falsy). -/
def emptyGuard (c : Client) (ret : SearchRet) (tr : List Req)
    (k : List Record → Except Err OpRet × List Req) : Except Err OpRet × List Req :=
  if ret.falsy then
    if c.empty_error then (.error (.emptyResult "No record found"), tr)
    else (.ok .sentinelFalse, tr)
  else
    match ret with
    | .records l => k l
    | .falseRet => k []

/-- `update` (lines 60-108): search for `sys_id`, apply the empty-result
policy, then PUT the dumped data to each record, recording "true" or the
error descriptor under its sys_id.  `dataJson` is json.dumps(data);
`putResp` gives the response for the PUT addressed to a given sys_id. -/
def update (c : Client) (table : String) (sl : List Elem) (slIsList : Bool)
    (dataJson : String) (sResp : SearchResp) (putResp : String → RecResp) :
    Except Err OpRet × List Req :=
  match search c table sl slIsList "sys_id" sResp with
  | (.error e, tr) => (.error e, tr)
  | (.ok ret, tr) =>
    emptyGuard c ret tr (fun recs =>
      let step := fun (acc : List (String × String) × List Req) (item : Record) =>
        let url := c.instanceUrl ++ "/api/now/table/" ++ table ++ "/" ++ item.sys_id
        (dictInsert acc.1 item.sys_id (recOutcome 200 (putResp item.sys_id)),
         acc.2 ++ [Req.put url dataJson])
      let fin := recs.foldl step ([], tr)
      (.ok (.dict fin.1), fin.2))

/-- `delete` (lines 218-263): like update with a DELETE per record and
success status 204. -/
def delete (c : Client) (table : String) (sl : List Elem) (slIsList : Bool)
    (sResp : SearchResp) (delResp : String → RecResp) :
    Except Err OpRet × List Req :=
  match search c table sl slIsList "sys_id" sResp with
  | (.error e, tr) => (.error e, tr)
  | (.ok ret, tr) =>
    emptyGuard c ret tr (fun recs =>
      let step := fun (acc : List (String × String) × List Req) (item : Record) =>
        let url := c.instanceUrl ++ "/api/now/table/" ++ table ++ "/" ++ item.sys_id
        (dictInsert acc.1 item.sys_id (recOutcome 204 (delResp item.sys_id)),
         acc.2 ++ [Req.delete url])
      let fin := recs.foldl step ([], tr)
      (.ok (.dict fin.1), fin.2))

/-- Incident states and value (change_state lines 295-302). -/
def incState : List (String × String) :=
  [("new", "1"), ("in progress", "2"), ("on hold", "3"),
   ("resolved", "6"), ("closed", "7"), ("canceled", "8")]

/-- Close-notes comments for incident states (lines 305-312). -/
def incNotes : List (String × String) :=
  [("new", ""), ("in progress", ""), ("on hold", ""),
   ("resolved", "Incident resolved"), ("closed", "Incident closed"),
   ("canceled", "Incident canceled")]

/-- Close code per incident state (lines 315-322). -/
def incCloseCode : List (String × String) :=
  [("new", ""), ("in progress", ""), ("on hold", ""),
   ("resolved", "Solved (Permanently)"), ("closed", "Solved (Permanently)"),
   ("canceled", "Closed/Resolved by Caller")]

/-- Problem states and value (lines 325-330). -/
def prbState : List (String × String) :=
  [("open", "1"), ("known error", "2"), ("pending change", "3"),
   ("closed/resolved", "4")]

/-- Work-notes comments for problem states (lines 333-338). -/
def prbWorkNotes : List (String × String) :=
  [("open", "Problem in open state"), ("known error", "Problem has known error"),
   ("pending change", "Problem is pending change"), ("closed/resolved", "Problem resolved")]

/-- Close-notes comments for problem states (lines 341-346). -/
def prbCloseNotes : List (String × String) :=
  [("open", ""), ("known error", ""), ("pending change", ""),
   ("closed/resolved", "Problem closed/resolved")]

/-- The InvalidValue message for an unknown incident state. -/
def incStateMsg : String :=
  "\"state\" invalid. Choose one of the following:\n" ++ pyTupleRepr (incState.map Prod.fst)

/-- The InvalidValue message for an unknown problem state. -/
def prbStateMsg : String :=
  "\"state\" invalid. Choose one of the following:\n" ++ pyTupleRepr (prbState.map Prod.fst)

/-- The PUT body for a problem state change (lines 356-360). -/
def prbBody (cn wn st : String) : String :=
  "\x7b\"close_notes\":\"" ++ cn ++ "\",\"work_notes\":\"" ++ wn
    ++ "\",\"state\":\"" ++ st ++ "\"\x7d"

/-- The PUT body for an incident state change (lines 367-371). -/
def incBody (cc cn st : String) : String :=
  "\x7b\"close_code\":\"" ++ cc ++ "\",\"close_notes\":\"" ++ cn
    ++ "\",\"state\":\"" ++ st ++ "\"\x7d"

/-- The per-record loop of change_state (lines 352-386): build the body
from the state maps (KeyError on an unknown state becomes InvalidValue,
stopping the loop with the requests issued so far), PUT it, and record
the outcome under the record number.  `table` is already lowercased. -/
def csLoop (c : Client) (table state : String) (putResp : String → RecResp) :
    List Record → List (String × String) → List Req → Except Err OpRet × List Req
  | [], m, tr => (.ok (.dict m), tr)
  | item :: rest, m, tr =>
    if table = "problem" then
      match prbCloseNotes.lookup (pyLower state), prbWorkNotes.lookup (pyLower state),
            prbState.lookup (pyLower state) with
      | some cn, some wn, some st =>
        let url := c.instanceUrl ++ "/api/now/table/problem/" ++ item.sys_id
        csLoop c table state putResp rest
          (dictInsert m item.number (recOutcome 200 (putResp item.sys_id)))
          (tr ++ [Req.put url (prbBody cn wn st)])
      | _, _, _ => (.error (.invalidValue prbStateMsg), tr)
    else
      match incCloseCode.lookup (pyLower state), incNotes.lookup (pyLower state),
            incState.lookup (pyLower state) with
      | some cc, some cn, some st =>
        let url := c.instanceUrl ++ "/api/now/table/" ++ table ++ "/" ++ item.sys_id
        csLoop c table state putResp rest
          (dictInsert m item.number (recOutcome 200 (putResp item.sys_id)))
          (tr ++ [Req.put url (incBody cc cn st)])
      | _, _, _ => (.error (.invalidValue incStateMsg), tr)

/-- `change_state` (lines 265-389): lowercase the table, search for
`number,sys_id`, apply the empty-result policy, then run the per-record
loop.  The state name is only validated inside the loop, after the
search request has been issued. -/
def changeState (c : Client) (table0 : String) (sl : List Elem) (slIsList : Bool)
    (state : String) (sResp : SearchResp) (putResp : String → RecResp) :
    Except Err OpRet × List Req :=
  let table := (pyLower table0)
  match search c table sl slIsList "number,sys_id" sResp with
  | (.error e, tr) => (.error e, tr)
  | (.ok ret, tr) =>
    emptyGuard c ret tr (fun recs => csLoop c table state putResp recs [] tr)

/-- An attachment record as decoded from the attachment query. -/
structure Attachment where
  file_name : String
  download_link : String
  sys_id : String
  deriving DecidableEq

/-- The response to the attachment-list GET of a record: status, the str
of the `error` member, and the decoded `result` list. -/
structure AttResp where
  status : Nat
  errorField : String
  result : List Attachment
  deriving DecidableEq

/-- The attachment-query url for a record (get_file lines 429-431). -/
def attQueryUrl (c : Client) (sysId : String) : String :=
  c.instanceUrl ++ "/api/now/attachment?sysparm_limit=50&sysparm_query=sysparm_query=active=true^table_sys_id=" ++ sysId

/-- The per-record loop of get_file (lines 426-468): list the active
attachments, record the status outcome, overwrite it with "false" when
the record has none (skipping the rest), otherwise "true"; download every
attachment whose name ends with the requested type (writing it to disk is
local file I/O, not modelled) and re-record "true" when one matched. -/
def gfLoop (c : Client) (ftype : String) (attResp : String → AttResp) :
    List Record → List (String × String) → List Req → Bool →
    List (String × String) × List Req × Bool
  | [], m, tr, foundAll => (m, tr, foundAll)
  | item :: rest, m, tr, foundAll =>
    let a := attResp item.sys_id
    let tr1 := tr ++ [Req.get (attQueryUrl c item.sys_id)]
    let m1 := dictInsert m item.number (recOutcome 200 ⟨a.status, a.errorField⟩)
    if a.result.isEmpty then
      gfLoop c ftype attResp rest (dictInsert m1 item.number "false") tr1 foundAll
    else
      let m2 := dictInsert m1 item.number "true"
      let matched := a.result.filter (fun att => att.file_name.endsWith ftype)
      let tr2 := tr1 ++ matched.map (fun att => Req.get att.download_link)
      let found := !matched.isEmpty
      gfLoop c ftype attResp rest
        (if found then dictInsert m2 item.number "true" else m2) tr2 (foundAll || found)

/-- `get_file` (lines 391-476): search for `number,sys_id`, apply the
empty-result policy, run the attachment loop, and apply the policy again
when no attachment of the requested type was found anywhere. -/
def getFile (c : Client) (table : String) (sl : List Elem) (slIsList : Bool)
    (ftype : String) (sResp : SearchResp) (attResp : String → AttResp) :
    Except Err OpRet × List Req :=
  match search c table sl slIsList "number,sys_id" sResp with
  | (.error e, tr) => (.error e, tr)
  | (.ok ret, tr) =>
    emptyGuard c ret tr (fun recs =>
      let fin := gfLoop c ftype attResp recs [] tr false
      if fin.2.2 then (.ok (.dict fin.1), fin.2.1)
      else if c.empty_error then (.error (.emptyResult "No record found"), fin.2.1)
      else (.ok .sentinelFalse, fin.2.1))

/-- ntpath.basename: the part after the last slash or backslash (drive
letters, absent from the claims, are not modelled). -/
def ntBasename (s : String) : String :=
  ((s.split (fun ch => ch == '/' || ch == '\\')).getLast?).getD ""

/-- `upload_file` (lines 478-529): search for `number,sys_id`, apply the
empty-result policy, then POST the file bytes for each record.  The POST
response is bound to a local variable the code never reads
(`response`), while the outcome written into the result dictionary is
computed from `self.response` — still the search response; `postResp`
models the unread POST responses. -/
def uploadFile (c : Client) (table : String) (sl : List Elem) (slIsList : Bool)
    (fileName fileBytes : String) (sResp : SearchResp) (postResp : String → RecResp) :
    Except Err OpRet × List Req :=
  match search c table sl slIsList "number,sys_id" sResp with
  | (.error e, tr) => (.error e, tr)
  | (.ok ret, tr) =>
    emptyGuard c ret tr (fun recs =>
      let step := fun (acc : List (String × String) × List Req) (item : Record) =>
        let url := c.instanceUrl ++ "/api/now/attachment/file?table_name=" ++ table
          ++ "&table_sys_id=" ++ item.sys_id ++ "&file_name=" ++ ntBasename fileName
        let _unread := postResp item.sys_id
        (dictInsert acc.1 item.number (recOutcome 200 ⟨sResp.status, sResp.errorField⟩),
         acc.2 ++ [Req.post url fileBytes])
      let fin := recs.foldl step ([], tr)
      (.ok (.dict fin.1), fin.2))

/-- The per-record loop of delete_file (lines 566-616): list the active
attachments, record the status outcome, overwrite with "false" when the
record has none (skipping the rest), otherwise "true"; DELETE every
attachment whose name equals the requested one, recording each delete
outcome, and finally "false" when no name matched. -/
def dfLoop (c : Client) (fname : String) (attResp : String → AttResp)
    (delResp : String → RecResp) :
    List Record → List (String × String) → List Req → Bool →
    List (String × String) × List Req × Bool
  | [], m, tr, foundAll => (m, tr, foundAll)
  | item :: rest, m, tr, foundAll =>
    let a := attResp item.sys_id
    let tr1 := tr ++ [Req.get (attQueryUrl c item.sys_id)]
    let m1 := dictInsert m item.number (recOutcome 200 ⟨a.status, a.errorField⟩)
    if a.result.isEmpty then
      dfLoop c fname attResp delResp rest (dictInsert m1 item.number "false") tr1 foundAll
    else
      let m2 := dictInsert m1 item.number "true"
      let innerStep := fun (acc : List (String × String) × List Req × Bool) (att : Attachment) =>
        if att.file_name == fname then
          (dictInsert acc.1 item.number (recOutcome 204 (delResp att.sys_id)),
           acc.2.1 ++ [Req.delete (c.instanceUrl ++ "/api/now/attachment/" ++ att.sys_id)],
           true)
        else acc
      let inner := a.result.foldl innerStep (m2, tr1, false)
      let found := inner.2.2
      dfLoop c fname attResp delResp rest
        (if found then inner.1 else dictInsert inner.1 item.number "false")
        inner.2.1 (foundAll || found)

/-- `delete_file` (lines 531-624): search for `number,sys_id`, apply the
empty-result policy, run the delete loop, and apply the policy again
(message "File not found") when no attachment name matched anywhere. -/
def deleteFile (c : Client) (table : String) (sl : List Elem) (slIsList : Bool)
    (fname : String) (sResp : SearchResp) (attResp : String → AttResp)
    (delResp : String → RecResp) : Except Err OpRet × List Req :=
  match search c table sl slIsList "number,sys_id" sResp with
  | (.error e, tr) => (.error e, tr)
  | (.ok ret, tr) =>
    emptyGuard c ret tr (fun recs =>
      let fin := dfLoop c fname attResp delResp recs [] tr false
      if fin.2.2 then (.ok (.dict fin.1), fin.2.1)
      else if c.empty_error then (.error (.emptyResult "File not found"), fin.2.1)
      else (.ok .sentinelFalse, fin.2.1))

/-- The response to the email POST or GET: status, str of the decoded
body, and its `result` member. -/
structure EmailResp where
  status : Nat
  jsonRepr : String
  resultJson : String
  deriving DecidableEq

/-- The InvalidFormat message for a missing `to`. -/
def emailToMsg : String := "\nMandatory parameter \"to\" missing"

/-- The InvalidFormat message for an unpaired table/sys_id. -/
def emailPairMsg : String := "\nBoth parameters \"table\" and \"sysId\" are required"

/-- The email POST body (send_email lines 664-672). -/
def sendEmailBody (toAddr cc bcc subject message table sysId : String) : String :=
  "\x7b\"to\": [\"" ++ toAddr ++ "\"], \"cc\": [\"" ++ cc ++ "\"], \"bcc\": [\"" ++ bcc
    ++ "\"], \"subject\": \"" ++ subject ++ "\", \"text\": \"" ++ message
    ++ "\", \"table_name\": \"" ++ table ++ "\", \"table_record_id\": \"" ++ sysId ++ "\"\x7d"

/-- `send_email` of src/service_now_client.py (lines 626-686): reject an
empty `to`, reject table/sys_id unless both or neither are supplied, then
POST (the isinstance checks hold for string arguments). -/
def sendEmail (c : Client) (subject message toAddr cc bcc table sysId : String)
    (resp : EmailResp) : Except Err String × List Req :=
  if toAddr == "" then (.error (.invalidFormat emailToMsg), [])
  else if (sysId != "" && table == "") || (sysId == "" && table != "") then
    (.error (.invalidFormat emailPairMsg), [])
  else
    let tr := [Req.post (c.instanceUrl ++ "/api/now/v1/email")
      (sendEmailBody toAddr cc bcc subject message table sysId)]
    if resp.status ≠ 200 then
      (.error (.responseError
        ("Error code = " ++ toString resp.status ++ " , Error details = " ++ resp.jsonRepr)), tr)
    else (.ok resp.resultJson, tr)

/-- `send_email` of the src/servicenow_api_client variant (lines
623-684): its validation block only performs isinstance checks through
__validate_format, all of which hold for string arguments; no emptiness
check on `to` and no table/sys_id pairing check is present, so the POST
is always issued. -/
def sendEmailV2 (c : Client) (subject message toAddr cc bcc table sysId : String)
    (resp : EmailResp) : Except Err String × List Req :=
  let tr := [Req.post (c.instanceUrl ++ "/api/now/v1/email")
    (sendEmailBody toAddr cc bcc subject message table sysId)]
  if resp.status ≠ 200 then
    (.error (.responseError
      ("Error code = " ++ toString resp.status ++ " , Error details = " ++ resp.jsonRepr)), tr)
  else (.ok resp.resultJson, tr)

/-! ### Query-compiler lemmas -/

/-- The search_list element encoding a full triple. -/
def tripleElem (t : String × String × String) : Elem :=
  .lst [t.1, t.2.1, t.2.2]

/-- The query fragment a single nested triple contributes. -/
def tripleFrag (t : String × String × String) : String :=
  "^" ++ t.1 ++ (opLookup (pyLower t.2.1)).getD "" ++ t.2.2

/-- Concatenation of the fragments of a triple list, in input order. -/
def fragsConcat : List (String × String × String) → String
  | [] => ""
  | t :: ts => tripleFrag t ++ fragsConcat ts

theorem loopPhase_triples (ts : List (String × String × String)) (frag : String)
    (acc : List Elem) (flag : Bool)
    (h : ∀ t ∈ ts, (opLookup (pyLower t.2.1)).isSome) :
    loopPhase (ts.map tripleElem) frag acc flag =
      ⟨none, frag ++ fragsConcat ts, acc.reverse ++ ts.map tripleElem, flag⟩ := by
  induction ts generalizing frag acc flag with
  | nil => simp [loopPhase, fragsConcat]
  | cons t ts ih =>
    obtain ⟨tok, htok⟩ := Option.isSome_iff_exists.mp (h t (by simp))
    simp only [List.map_cons, loopPhase, elemStep, tripleElem, List.isEmpty_cons,
      Bool.false_eq_true, if_false, List.headD_cons, htok, Bool.or_false]
    rw [ih _ _ _ (fun t ht => h t (by simp [ht]))]
    simp [fragsConcat, tripleFrag, htok, String.append_assoc]

theorem loopPhase_triples_bad (ts : List (String × String × String)) (frag : String)
    (acc : List Elem) (flag : Bool)
    (h : ∃ t ∈ ts, opLookup (pyLower t.2.1) = none) :
    (loopPhase (ts.map tripleElem) frag acc flag).err =
      some (.invalidValue invalidOperatorMsg) := by
  induction ts generalizing frag acc flag with
  | nil => simp at h
  | cons t ts ih =>
    by_cases ht : opLookup (pyLower t.2.1) = none
    · simp [loopPhase, elemStep, tripleElem, ht]
    · obtain ⟨tok, htok⟩ := Option.ne_none_iff_exists'.mp ht
      have hts : ∃ u ∈ ts, opLookup (pyLower u.2.1) = none := by
        obtain ⟨u, hu, hun⟩ := h
        rcases List.mem_cons.mp hu with rfl | hu'
        · exact absurd hun ht
        · exact ⟨u, hu', hun⟩
      simp only [List.map_cons, loopPhase, elemStep, tripleElem, List.isEmpty_cons,
        Bool.false_eq_true, if_false, List.headD_cons, htok]
      exact ih _ _ _ hts

theorem loopPhase_scalars (sl : List Elem) (frag : String) (acc : List Elem)
    (flag : Bool) (h : ∀ e ∈ sl, ∃ s, e = Elem.str s) :
    loopPhase sl frag acc flag = ⟨none, frag, acc.reverse ++ sl, flag || !sl.isEmpty⟩ := by
  induction sl generalizing frag acc flag with
  | nil => simp [loopPhase]
  | cons e es ih =>
    obtain ⟨s, rfl⟩ := h e (by simp)
    simp only [loopPhase, elemStep]
    rw [ih _ _ _ (fun e he => h e (by simp [he]))]
    simp

theorem loopPhase_preserve (sl : List Elem) (frag : String) (acc : List Elem)
    (flag : Bool) (h : ∀ l, Elem.lst l ∈ sl → l.length ≠ 2) :
    (loopPhase sl frag acc flag).elems = acc.reverse ++ sl := by
  induction sl generalizing frag acc flag with
  | nil => simp [loopPhase]
  | cons e es ih =>
    have ihs := fun frag acc flag => ih frag acc flag (fun l hl => h l (by simp [hl]))
    match e with
    | .str s =>
      simp only [loopPhase, elemStep]
      rw [ihs]
      simp
    | .lst [] => simp [loopPhase, elemStep]
    | .lst [f] => simp [loopPhase, elemStep]
    | .lst (f :: op :: rest) =>
      have hrest : rest ≠ [] := by
        intro hr
        exact h (f :: op :: rest) (by simp) (by simp [hr])
      simp only [loopPhase, elemStep, List.isEmpty_eq_true, hrest, if_false]
      match hop : opLookup (pyLower op) with
      | some tok =>
        simp only []
        rw [ihs]
        simp
      | none => simp

theorem simpleBranch_elems (frag : String) (sl : List Elem) (h : sl.length ≠ 2) :
    (simpleBranch frag sl).elems = sl := by
  match sl with
  | [] => simp [simpleBranch]
  | [e] => simp [simpleBranch]
  | e0 :: e1 :: rest =>
    have hrest : rest ≠ [] := by
      intro hr
      exact h (by simp [hr])
    match e1 with
    | .lst l => simp [simpleBranch]
    | .str op =>
      match hop : opLookup (pyLower op) with
      | some tok =>
        match rest, hrest with
        | v :: rest1, _ => simp [simpleBranch, hop]
      | none => simp [simpleBranch, hop]

/-! ### Claim theorems for the query compiler -/

/-- C2: a valid single flat triple (f, op, v) compiles to exactly
`^f<token>v` with `<token>` the vocabulary mapping of the lowercased
operator, and a valid nested sequence of triples compiles to the
concatenation of the per-triple fragments in input order, each prefixed
with `^`. -/
theorem C2_compile_fragments :
    (∀ f op v tok : String, opLookup (pyLower op) = some tok →
      (compileQuery [Elem.str f, Elem.str op, Elem.str v] true).res =
        .ok ("^" ++ f ++ tok ++ v)) ∧
    (∀ ts : List (String × String × String),
      (∀ t ∈ ts, (opLookup (pyLower t.2.1)).isSome) →
      (compileQuery (ts.map tripleElem) true).res = .ok (fragsConcat ts)) := by
  constructor
  · intro f op v tok h
    simp [compileQuery, loopPhase, elemStep, simpleBranch, h, pyFmt]
  · intro ts h
    rw [compileQuery, loopPhase_triples ts "" [] false h]
    simp

/-- Witness for C2 at a concrete triple and a concrete two-triple list. -/
theorem C2_compile_fragments_witness :
    (compileQuery [Elem.str "state", Elem.str "Is", Elem.str "6"] true).res = .ok "^state=6" ∧
    (compileQuery [Elem.lst ["state", "is", "6"], Elem.lst ["priority", "contains", "1"]] true).res =
      .ok "^state=6^priorityLIKE1" := by
  constructor
  · have h := C2_compile_fragments.1 "state" "Is" "6" "=" (by decide)
    simpa using h
  · have h := C2_compile_fragments.2 [("state", "is", "6"), ("priority", "contains", "1")]
      (by decide)
    simpa [tripleElem, fragsConcat, tripleFrag, opLookup] using h

set_option maxRecDepth 8192 in
/-- C3: an operator outside the vocabulary (after lowercasing) makes
compilation fail with InvalidValue, both for a flat triple and for any
nested triple of a sequence, and the message enumerates every valid
operator name. -/
theorem C3_unknown_operator :
    invalidOperatorMsg =
      "Operator value invalid. Choose one of the following:\n(\x27is\x27, \x27is not\x27, \x27is one of\x27, \x27starts with\x27, \x27ends with\x27, \x27contains\x27, \x27does not contain\x27, \x27less than or is\x27, \x27greater than or is\x27, \x27same as\x27, \x27is empty\x27, \x27is not empty\x27, \x27is anything\x27, \x27is empty string\x27)" ∧
    (∀ f op v : String, opLookup (pyLower op) = none →
      (compileQuery [Elem.str f, Elem.str op, Elem.str v] true).res =
        .error (.invalidValue invalidOperatorMsg)) ∧
    (∀ (ts : List (String × String × String)) (b : Bool),
      (∃ t ∈ ts, opLookup (pyLower t.2.1) = none) →
      (compileQuery (ts.map tripleElem) b).res =
        .error (.invalidValue invalidOperatorMsg)) := by
  refine ⟨rfl, ?_, ?_⟩
  · intro f op v h
    simp [compileQuery, loopPhase, elemStep, simpleBranch, h]
  · intro ts b h
    have hl := loopPhase_triples_bad ts "" [] false h
    rcases hlo : loopPhase (ts.map tripleElem) "" [] false with ⟨err, frag, elems, flag⟩
    rw [hlo] at hl
    simp only at hl
    subst hl
    simp [compileQuery, hlo]

/-- Witness for C3 at a concrete unknown operator, flat and nested. -/
theorem C3_unknown_operator_witness :
    (compileQuery [Elem.str "state", Elem.str "equals", Elem.str "6"] true).res =
      .error (.invalidValue invalidOperatorMsg) ∧
    (compileQuery [Elem.lst ["state", "is", "6"], Elem.lst ["priority", "equals", "1"]] true).res =
      .error (.invalidValue invalidOperatorMsg) := by
  constructor
  · exact C3_unknown_operator.2.1 "state" "equals" "6" (by decide)
  · have h := C3_unknown_operator.2.2 [("state", "is", "6"), ("priority", "equals", "1")] true
      ⟨("priority", "equals", "1"), by decide, by decide⟩
    simpa [tripleElem] using h

/-- C4 counterexample: compilation of the empty list succeeds with an
empty fragment (the unbound-flag error is swallowed), and compilation of
a list mixing a nested triple with scalar elements also succeeds,
producing a garbled query; neither fails with InvalidFormat as the claim
states. -/
theorem C4_cex :
    (compileQuery [] true).res = .ok "" ∧
    (compileQuery [Elem.lst ["a", "is", "b"], Elem.str "is", Elem.str "v"] true).res =
      .ok "^a=b^[\x27a\x27, \x27is\x27, \x27b\x27]=v" := by
  exact ⟨rfl, by decide⟩

/-- C4 amended: only a search_list that is not a Python list and whose
elements are scalars is rejected with InvalidFormat; the empty sequence
is silently accepted with an empty fragment. -/
theorem C4_invalid_format :
    ((compileQuery [] true).res = .ok "" ∧ (compileQuery [] false).res = .ok "") ∧
    (∀ sl : List Elem, sl ≠ [] → (∀ e ∈ sl, ∃ s, e = Elem.str s) →
      (compileQuery sl false).res = .error (.invalidFormat searchListFormatMsg)) := by
  refine ⟨⟨rfl, rfl⟩, ?_⟩
  intro sl hne h
  rw [compileQuery, loopPhase_scalars sl "" [] false h]
  simp [List.isEmpty_eq_true, hne]

/-- Witness for C4 amended: a flat triple passed as a non-list (tuple)
fails with InvalidFormat. -/
theorem C4_invalid_format_witness :
    (compileQuery [Elem.str "state", Elem.str "is", Elem.str "6"] false).res =
      .error (.invalidFormat searchListFormatMsg) := by
  exact C4_invalid_format.2 [Elem.str "state", Elem.str "is", Elem.str "6"]
    (by decide) (fun e he => by
      simp only [List.mem_cons, List.not_mem_nil, or_false] at he
      rcases he with rfl | rfl | rfl <;> exact ⟨_, rfl⟩)

/-- C9 counterexample: compiling the nested spec [["f","is"]] inserts the
missing value into the inner list, so the specification is mutated, not
immutable. -/
theorem C9_cex :
    compileQuery [Elem.lst ["f", "is"]] true =
      ⟨.ok "^f=", [Elem.lst ["f", "is", ""]]⟩ ∧
    ([Elem.lst ["f", "is", ""]] : List Elem) ≠ [Elem.lst ["f", "is"]] := by
  exact ⟨by decide, by decide⟩

/-- C9 amended: compilation leaves the specification unchanged provided
no inner list has exactly two elements and the outer list does not itself
have exactly two elements; a triple whose value is omitted is mutated by
inserting the empty string as its third element. -/
theorem C9_no_mutation (sl : List Elem) (b : Bool)
    (hin : ∀ l, Elem.lst l ∈ sl → l.length ≠ 2) (hout : sl.length ≠ 2) :
    (compileQuery sl b).elems = sl := by
  have hpres := loopPhase_preserve sl "" [] false hin
  rcases hlo : loopPhase sl "" [] false with ⟨err, frag, elems, flag⟩
  rw [hlo] at hpres
  simp only [List.reverse_nil, List.nil_append] at hpres
  simp only [compileQuery, hlo]
  match err with
  | some e => simpa using hpres
  | none =>
    match flag, b with
    | false, _ => simpa using hpres
    | true, false => simpa using hpres
    | true, true =>
      simp only [if_true]
      rw [hpres]
      exact simpleBranch_elems frag sl hout

/-- Witness for C9 amended: a complete flat triple is unchanged. -/
theorem C9_no_mutation_witness :
    (compileQuery [Elem.str "state", Elem.str "is", Elem.str "6"] true).elems =
      [Elem.str "state", Elem.str "is", Elem.str "6"] := by
  exact C9_no_mutation [Elem.str "state", Elem.str "is", Elem.str "6"] true
    (fun l hl => by simp at hl) (by decide)

/-! ### Facade lemmas -/

theorem search_ok_empty (c : Client) (table : String) (sl : List Elem) (b : Bool)
    (fields frag : String) (sResp : SearchResp)
    (hc : (compileQuery sl b).res = .ok frag) (hs : sResp.status = 200)
    (hr : sResp.result = []) :
    search c table sl b fields sResp =
      ((if c.empty_error then .error (.emptyResult "No record found") else .ok .falseRet),
       [Req.get (searchUrl c table frag fields)]) := by
  by_cases he : c.empty_error <;> simp [search, hc, hs, hr, he]

theorem search_ok_records (c : Client) (table : String) (sl : List Elem) (b : Bool)
    (fields frag : String) (sResp : SearchResp)
    (hc : (compileQuery sl b).res = .ok frag) (hs : sResp.status = 200)
    (hr : sResp.result ≠ []) :
    search c table sl b fields sResp =
      (.ok (.records sResp.result), [Req.get (searchUrl c table frag fields)]) := by
  simp [search, hc, hs, hr]

theorem foldl_pair {α β γ : Type} (f : β → α → β) (g : α → γ) (l : List α)
    (b : β) (t : List γ) :
    l.foldl (fun acc x => (f acc.1 x, acc.2 ++ [g x])) (b, t) =
      (l.foldl f b, t ++ l.map g) := by
  induction l generalizing b t with
  | nil => simp
  | cons x xs ih => simp [ih]

/-- The uniform outcome of a batch operation whose search matched zero
records: EmptyResult when the client was built with empty_error, the
Python value False otherwise. -/
def emptyPolicy (c : Client) : Except Err OpRet :=
  if c.empty_error then .error (.emptyResult "No record found") else .ok .sentinelFalse

/-! ### Claim theorems for the record-operation facade -/

/-- C1: when the underlying search matches zero records, every batch
operation (update, delete, change_state, get_file, upload_file,
delete_file) fails with EmptyResult if the client was constructed with
empty_error and returns the sentinel False otherwise. -/
theorem C1_empty_policy (c : Client) (table : String) (sl : List Elem) (b : Bool)
    (frag dataJson fname fbytes ftype : String) (sResp : SearchResp)
    (putResp delResp postResp : String → RecResp) (attResp : String → AttResp)
    (hc : (compileQuery sl b).res = .ok frag) (hs : sResp.status = 200)
    (hr : sResp.result = []) :
    (update c table sl b dataJson sResp putResp).1 = emptyPolicy c ∧
    (delete c table sl b sResp delResp).1 = emptyPolicy c ∧
    (changeState c table sl b "resolved" sResp putResp).1 = emptyPolicy c ∧
    (getFile c table sl b ftype sResp attResp).1 = emptyPolicy c ∧
    (uploadFile c table sl b fname fbytes sResp postResp).1 = emptyPolicy c ∧
    (deleteFile c table sl b fname sResp attResp delResp).1 = emptyPolicy c := by
  have hA := search_ok_empty c table sl b "sys_id" frag sResp hc hs hr
  have hB := search_ok_empty c table sl b "number,sys_id" frag sResp hc hs hr
  have hC := search_ok_empty c (pyLower table) sl b "number,sys_id" frag sResp hc hs hr
  cases hee : c.empty_error with
  | true =>
    refine ⟨?_, ?_, ?_, ?_, ?_, ?_⟩ <;>
      simp [update, delete, changeState, getFile, uploadFile, deleteFile,
        hA, hB, hC, hee, emptyPolicy]
  | false =>
    refine ⟨?_, ?_, ?_, ?_, ?_, ?_⟩ <;>
      simp [update, delete, changeState, getFile, uploadFile, deleteFile,
        hA, hB, hC, hee, emptyPolicy, emptyGuard, SearchRet.falsy]

/-- Witness for C1 with a concrete client under each policy flag. -/
theorem C1_empty_policy_witness :
    (update ⟨"dev", true⟩ "incident" [Elem.str "state", Elem.str "is", Elem.str "6"] true
        "\x7b\x7d" ⟨200, [], "", ""⟩ (fun _ => ⟨200, ""⟩)).1 =
      .error (.emptyResult "No record found") ∧
    (deleteFile ⟨"dev", false⟩ "incident" [Elem.str "state", Elem.str "is", Elem.str "6"] true
        "a.txt" ⟨200, [], "", ""⟩ (fun _ => ⟨200, "", []⟩) (fun _ => ⟨204, ""⟩)).1 =
      .ok .sentinelFalse := by
  constructor
  · exact (C1_empty_policy ⟨"dev", true⟩ "incident"
      [Elem.str "state", Elem.str "is", Elem.str "6"] true "^state=6" "\x7b\x7d" "" "" ""
      ⟨200, [], "", ""⟩ (fun _ => ⟨200, ""⟩) (fun _ => ⟨200, ""⟩) (fun _ => ⟨200, ""⟩)
      (fun _ => ⟨200, "", []⟩) (by decide) rfl rfl).1
  · exact (C1_empty_policy ⟨"dev", false⟩ "incident"
      [Elem.str "state", Elem.str "is", Elem.str "6"] true "^state=6" "" "a.txt" "" ""
      ⟨200, [], "", ""⟩ (fun _ => ⟨200, ""⟩) (fun _ => ⟨204, ""⟩) (fun _ => ⟨200, ""⟩)
      (fun _ => ⟨200, "", []⟩) (by decide) rfl rfl).2.2.2.2.2

/-- C5: with matched records a and b where the PUT for a returns 200 and
the PUT for b returns 500, update records "true" for a and the error
descriptor for b — the per-record failure does not abort the batch. -/
theorem C5_partial_failure (c : Client) (table : String) (sl : List Elem) (b : Bool)
    (frag dataJson na nb ea detail : String) (sResp : SearchResp)
    (putResp : String → RecResp)
    (hc : (compileQuery sl b).res = .ok frag) (hs : sResp.status = 200)
    (hr : sResp.result = [⟨"a", na⟩, ⟨"b", nb⟩])
    (hpa : putResp "a" = ⟨200, ea⟩) (hpb : putResp "b" = ⟨500, detail⟩) :
    (update c table sl b dataJson sResp putResp).1 =
      .ok (.dict [("a", "true"), ("b", "Error Code 500, " ++ detail)]) := by
  have hse := search_ok_records c table sl b "sys_id" frag sResp hc hs (by simp [hr])
  simp [update, hse, emptyGuard, SearchRet.falsy, hr, dictInsert, recOutcome, hpa, hpb]
  rfl

/-- Witness for C5 at a concrete client and responses. -/
theorem C5_partial_failure_witness :
    (update ⟨"dev", true⟩ "incident" [Elem.str "state", Elem.str "is", Elem.str "6"] true
        "\x7b\x7d" ⟨200, [⟨"a", "INC1"⟩, ⟨"b", "INC2"⟩], "", ""⟩
        (fun sid => if sid = "b" then ⟨500, "oops"⟩ else ⟨200, ""⟩)).1 =
      .ok (.dict [("a", "true"), ("b", "Error Code 500, oops")]) := by
  have h := C5_partial_failure ⟨"dev", true⟩ "incident"
    [Elem.str "state", Elem.str "is", Elem.str "6"] true "^state=6" "\x7b\x7d"
    "INC1" "INC2" "" "oops" ⟨200, [⟨"a", "INC1"⟩, ⟨"b", "INC2"⟩], "", ""⟩
    (fun sid => if sid = "b" then ⟨500, "oops"⟩ else ⟨200, ""⟩)
    (by decide) rfl rfl (by decide) (by decide)
  simpa using h

/-- C6 counterexample: change_state with the unknown state "bogus" on a
client that matched one incident raises InvalidValue, but the trace is
not empty — the search GET was already issued, so the failure does not
happen before any HTTP request as the claim states. -/
theorem C6_cex :
    (changeState ⟨"dev", true⟩ "incident" [Elem.str "state", Elem.str "is", Elem.str "6"]
        true "bogus" ⟨200, [⟨"s1", "INC1"⟩], "", ""⟩ (fun _ => ⟨200, ""⟩)).1 =
      .error (.invalidValue incStateMsg) ∧
    (changeState ⟨"dev", true⟩ "incident" [Elem.str "state", Elem.str "is", Elem.str "6"]
        true "bogus" ⟨200, [⟨"s1", "INC1"⟩], "", ""⟩ (fun _ => ⟨200, ""⟩)).2 ≠ [] := by
  exact ⟨by decide, by decide⟩

/-- C6 amended: change_state with a state name outside the enumeration of
the table kind fails with InvalidValue enumerating the valid names for
that kind, before any record-update PUT but after the search GET has been
issued (given the search matched at least one record). -/
theorem C6_state_validation (c : Client) (table : String) (sl : List Elem) (b : Bool)
    (state frag : String) (sResp : SearchResp) (putResp : String → RecResp)
    (hc : (compileQuery sl b).res = .ok frag) (hs : sResp.status = 200)
    (hr : sResp.result ≠ [])
    (hprb : pyLower table = "problem" → prbState.lookup (pyLower state) = none)
    (hinc : pyLower table ≠ "problem" → incState.lookup (pyLower state) = none) :
    incStateMsg = "\"state\" invalid. Choose one of the following:\n(\x27new\x27, \x27in progress\x27, \x27on hold\x27, \x27resolved\x27, \x27closed\x27, \x27canceled\x27)" ∧
    prbStateMsg = "\"state\" invalid. Choose one of the following:\n(\x27open\x27, \x27known error\x27, \x27pending change\x27, \x27closed/resolved\x27)" ∧
    (changeState c table sl b state sResp putResp).1 =
      .error (.invalidValue
        (if pyLower table = "problem" then prbStateMsg else incStateMsg)) ∧
    (changeState c table sl b state sResp putResp).2 =
      [Req.get (searchUrl c (pyLower table) frag "number,sys_id")] := by
  have hse := search_ok_records c (pyLower table) sl b "number,sys_id" frag sResp hc hs hr
  obtain ⟨r, rest, hrr⟩ : ∃ r rest, sResp.result = r :: rest := by
    match hres : sResp.result, hr with
    | r :: rest, _ => exact ⟨r, rest, rfl⟩
  have hmain : changeState c table sl b state sResp putResp =
      (.error (.invalidValue
        (if pyLower table = "problem" then prbStateMsg else incStateMsg)),
       [Req.get (searchUrl c (pyLower table) frag "number,sys_id")]) := by
    by_cases hp : pyLower table = "problem"
    · rw [hp] at hse
      rcases h1 : prbCloseNotes.lookup (pyLower state) with _ | cn <;>
        rcases h2 : prbWorkNotes.lookup (pyLower state) with _ | wn <;>
          simp [changeState, hse, emptyGuard, SearchRet.falsy, hrr, csLoop,
            hp, h1, h2, hprb hp]
    · rcases h1 : incCloseCode.lookup (pyLower state) with _ | cc <;>
        rcases h2 : incNotes.lookup (pyLower state) with _ | cn <;>
          simp [changeState, hse, emptyGuard, SearchRet.falsy, hrr, csLoop,
            hp, h1, h2, hinc hp]
  exact ⟨rfl, rfl, by rw [hmain], by rw [hmain]⟩

/-- Witness for C6 amended at the concrete unknown state "bogus". -/
theorem C6_state_validation_witness :
    (changeState ⟨"dev", true⟩ "incident" [Elem.str "state", Elem.str "is", Elem.str "6"]
        true "bogus" ⟨200, [⟨"s1", "INC1"⟩], "", ""⟩ (fun _ => ⟨200, ""⟩)).2 =
      [Req.get "https://dev.service-now.com/api/now/table/incident?sysparm_limit=50&sysparm_query=sysparm_query=^state=6&sysparm_fields=number,sys_id"] := by
  have h := C6_state_validation ⟨"dev", true⟩ "incident"
    [Elem.str "state", Elem.str "is", Elem.str "6"] true "bogus" "^state=6"
    ⟨200, [⟨"s1", "INC1"⟩], "", ""⟩ (fun _ => ⟨200, ""⟩)
    (by decide) rfl (by decide) (fun hp => absurd hp (by decide)) (fun _ => by decide)
  simpa [searchUrl, searchUrlPrefix, Client.instanceUrl, pyLower] using h.2.2.2

theorem csLoop_ok (c : Client) (table state : String) (putResp : String → RecResp)
    (recs : List Record) (m : List (String × String)) (tr : List Req)
    (htb : table ≠ "problem") (cc cn st : String)
    (hcc : incCloseCode.lookup (pyLower state) = some cc)
    (hcn : incNotes.lookup (pyLower state) = some cn)
    (hst : incState.lookup (pyLower state) = some st) :
    csLoop c table state putResp recs m tr =
      (.ok (.dict (recs.foldl
        (fun m r => dictInsert m r.number (recOutcome 200 (putResp r.sys_id))) m)),
       tr ++ recs.map (fun r =>
         Req.put (c.instanceUrl ++ "/api/now/table/" ++ table ++ "/" ++ r.sys_id)
           (incBody cc cn st))) := by
  induction recs generalizing m tr with
  | nil => simp [csLoop]
  | cons r rest ih => simp [csLoop, htb, hcc, hcn, hst, ih]

/-- C8: change_state to "resolved" on a non-problem table with at least
one matched record issues, after the search GET, one PUT per matched
record whose body is exactly the JSON of close_code "Solved
(Permanently)", close_notes "Incident resolved" and state "6". -/
theorem C8_resolved_body (c : Client) (table : String) (sl : List Elem) (b : Bool)
    (frag : String) (sResp : SearchResp) (putResp : String → RecResp)
    (hc : (compileQuery sl b).res = .ok frag) (hs : sResp.status = 200)
    (hr : sResp.result ≠ []) (htb : pyLower table ≠ "problem") :
    incBody "Solved (Permanently)" "Incident resolved" "6" =
      "\x7b\"close_code\":\"Solved (Permanently)\",\"close_notes\":\"Incident resolved\",\"state\":\"6\"\x7d" ∧
    (changeState c table sl b "resolved" sResp putResp).2 =
      Req.get (searchUrl c (pyLower table) frag "number,sys_id") ::
        sResp.result.map (fun r =>
          Req.put (c.instanceUrl ++ "/api/now/table/" ++ pyLower table ++ "/" ++ r.sys_id)
            (incBody "Solved (Permanently)" "Incident resolved" "6")) := by
  refine ⟨rfl, ?_⟩
  have hse := search_ok_records c (pyLower table) sl b "number,sys_id" frag sResp hc hs hr
  have hcs := csLoop_ok c (pyLower table) "resolved" putResp sResp.result []
    [Req.get (searchUrl c (pyLower table) frag "number,sys_id")] htb
    "Solved (Permanently)" "Incident resolved" "6" rfl rfl rfl
  simp [changeState, hse, emptyGuard, SearchRet.falsy, List.isEmpty_eq_true, hr, hcs]

/-- Witness for C8 with two concrete matched incidents. -/
theorem C8_resolved_body_witness :
    (changeState ⟨"dev", true⟩ "incident" [Elem.str "state", Elem.str "is", Elem.str "6"]
        true "resolved" ⟨200, [⟨"s1", "INC1"⟩, ⟨"s2", "INC2"⟩], "", ""⟩
        (fun _ => ⟨200, ""⟩)).2 =
      [Req.get "https://dev.service-now.com/api/now/table/incident?sysparm_limit=50&sysparm_query=sysparm_query=^state=6&sysparm_fields=number,sys_id",
       Req.put "https://dev.service-now.com/api/now/table/incident/s1"
         "\x7b\"close_code\":\"Solved (Permanently)\",\"close_notes\":\"Incident resolved\",\"state\":\"6\"\x7d",
       Req.put "https://dev.service-now.com/api/now/table/incident/s2"
         "\x7b\"close_code\":\"Solved (Permanently)\",\"close_notes\":\"Incident resolved\",\"state\":\"6\"\x7d"] := by
  have h := C8_resolved_body ⟨"dev", true⟩ "incident"
    [Elem.str "state", Elem.str "is", Elem.str "6"] true "^state=6"
    ⟨200, [⟨"s1", "INC1"⟩, ⟨"s2", "INC2"⟩], "", ""⟩ (fun _ => ⟨200, ""⟩)
    (by decide) rfl (by decide) (by decide)
  simpa [searchUrl, searchUrlPrefix, Client.instanceUrl, pyLower, incBody] using h.2

/-- C10: upload_file computes every per-record outcome from the stored
search response, not from the upload POST response: whenever the search
returned 200 with at least one record, the result maps every record
number to "true", for every possible family of POST responses, even
though one POST per record is issued. -/
theorem C10_upload_ignores_post (c : Client) (table : String) (sl : List Elem)
    (b : Bool) (fname fbytes frag : String) (sResp : SearchResp)
    (postResp : String → RecResp)
    (hc : (compileQuery sl b).res = .ok frag) (hs : sResp.status = 200)
    (hr : sResp.result ≠ []) :
    (uploadFile c table sl b fname fbytes sResp postResp).1 =
      .ok (.dict (sResp.result.foldl (fun m r => dictInsert m r.number "true") [])) ∧
    (uploadFile c table sl b fname fbytes sResp postResp).2 =
      Req.get (searchUrl c table frag "number,sys_id") ::
        sResp.result.map (fun r =>
          Req.post (c.instanceUrl ++ "/api/now/attachment/file?table_name=" ++ table
            ++ "&table_sys_id=" ++ r.sys_id ++ "&file_name=" ++ ntBasename fname)
            fbytes) := by
  have hse := search_ok_records c table sl b "number,sys_id" frag sResp hc hs hr
  have hfold := foldl_pair
    (fun m (r : Record) => dictInsert m r.number (recOutcome 200 ⟨sResp.status, sResp.errorField⟩))
    (fun r : Record =>
      Req.post (c.instanceUrl ++ "/api/now/attachment/file?table_name=" ++ table
        ++ "&table_sys_id=" ++ r.sys_id ++ "&file_name=" ++ ntBasename fname) fbytes)
    sResp.result []
    [Req.get (searchUrl c table frag "number,sys_id")]
  simp only [recOutcome, hs, ne_eq, not_true_eq_false, if_false, ite_false,
    reduceIte] at hfold
  constructor <;>
    simp [uploadFile, hse, emptyGuard, SearchRet.falsy, List.isEmpty_eq_true, hr,
      hfold, recOutcome, hs]

/-- Witness for C10: the search succeeded, the upload POST returns 500,
and the record is still recorded as "true". -/
theorem C10_upload_ignores_post_witness :
    (uploadFile ⟨"dev", true⟩ "incident" [Elem.str "state", Elem.str "is", Elem.str "6"]
        true "/tmp/a.txt" "bytes" ⟨200, [⟨"s1", "INC1"⟩], "", ""⟩
        (fun _ => ⟨500, "upload failed"⟩)).1 =
      .ok (.dict [("INC1", "true")]) := by
  have h := C10_upload_ignores_post ⟨"dev", true⟩ "incident"
    [Elem.str "state", Elem.str "is", Elem.str "6"] true "/tmp/a.txt" "bytes" "^state=6"
    ⟨200, [⟨"s1", "INC1"⟩], "", ""⟩ (fun _ => ⟨500, "upload failed"⟩)
    (by decide) rfl (by decide)
  simpa [dictInsert] using h.1

/-- C7 counterexample: in the servicenow_api_client variant, send_email
with table "incident" but empty sys_id does not fail with InvalidFormat —
it issues the POST and succeeds, so the claim does not hold for every
send_email of the repository. -/
theorem C7_cex :
    (sendEmailV2 ⟨"dev", true⟩ "subj" "msg" "user@x.com" "" "" "incident" ""
        ⟨200, "", "ok"⟩).1 = .ok "ok" ∧
    (sendEmailV2 ⟨"dev", true⟩ "subj" "msg" "user@x.com" "" "" "incident" ""
        ⟨200, "", "ok"⟩).2 =
      [Req.post "https://dev.service-now.com/api/now/v1/email"
        (sendEmailBody "user@x.com" "" "" "subj" "msg" "incident" "")] := by
  exact ⟨rfl, rfl⟩

/-- C7 amended: in src/service_now_client.py, send_email with a non-empty
`to` and exactly one of table/sys_id empty fails with InvalidFormat
before any request, and with both or neither empty it proceeds to the
POST; the servicenow_api_client variant has no pairing check and always
proceeds to the POST. -/
theorem C7_email_pairing :
    (∀ (c : Client) (subject message toAddr cc bcc table sysId : String)
       (resp : EmailResp), toAddr ≠ "" →
      ((table = "" ∧ sysId ≠ "") ∨ (table ≠ "" ∧ sysId = "")) →
      sendEmail c subject message toAddr cc bcc table sysId resp =
        (.error (.invalidFormat emailPairMsg), [])) ∧
    (∀ (c : Client) (subject message toAddr cc bcc table sysId : String)
       (resp : EmailResp), toAddr ≠ "" → (table = "" ↔ sysId = "") →
      (sendEmail c subject message toAddr cc bcc table sysId resp).2 =
        [Req.post (c.instanceUrl ++ "/api/now/v1/email")
          (sendEmailBody toAddr cc bcc subject message table sysId)]) ∧
    (∀ (c : Client) (subject message toAddr cc bcc table sysId : String)
       (resp : EmailResp),
      (sendEmailV2 c subject message toAddr cc bcc table sysId resp).2 =
        [Req.post (c.instanceUrl ++ "/api/now/v1/email")
          (sendEmailBody toAddr cc bcc subject message table sysId)]) := by
  refine ⟨?_, ?_, ?_⟩
  · intro c subject message toAddr cc bcc table sysId resp hto hpair
    rcases hpair with ⟨ht, hs⟩ | ⟨ht, hs⟩ <;> simp [sendEmail, hto, ht, hs]
  · intro c subject message toAddr cc bcc table sysId resp hto hiff
    by_cases ht : table = ""
    · have hs := hiff.mp ht
      by_cases hst : resp.status = 200 <;> simp [sendEmail, hto, ht, hs, hst]
    · have hs : sysId ≠ "" := fun h => ht (hiff.mpr h)
      by_cases hst : resp.status = 200 <;> simp [sendEmail, hto, ht, hs, hst]
  · intro c subject message toAddr cc bcc table sysId resp
    by_cases hst : resp.status = 200 <;> simp [sendEmailV2, hst]

/-- Witness for C7 amended: a concrete unpaired call fails with no
request; a concrete paired call and a concrete variant call each issue
exactly the POST. -/
theorem C7_email_pairing_witness :
    sendEmail ⟨"dev", true⟩ "subj" "msg" "user@x.com" "" "" "incident" ""
        ⟨200, "", "ok"⟩ = (.error (.invalidFormat emailPairMsg), []) ∧
    (sendEmail ⟨"dev", true⟩ "subj" "msg" "user@x.com" "" "" "incident" "s1"
        ⟨200, "", "ok"⟩).2 =
      [Req.post "https://dev.service-now.com/api/now/v1/email"
        (sendEmailBody "user@x.com" "" "" "subj" "msg" "incident" "s1")] ∧
    (sendEmailV2 ⟨"dev", true⟩ "subj" "msg" "user@x.com" "" "" "" "s1"
        ⟨200, "", "ok"⟩).2 =
      [Req.post "https://dev.service-now.com/api/now/v1/email"
        (sendEmailBody "user@x.com" "" "" "subj" "msg" "" "s1")] := by
  refine ⟨?_, ?_, ?_⟩
  · exact C7_email_pairing.1 ⟨"dev", true⟩ "subj" "msg" "user@x.com" "" "" "incident" ""
      ⟨200, "", "ok"⟩ (by decide) (Or.inr ⟨by decide, rfl⟩)
  · have h := C7_email_pairing.2.1 ⟨"dev", true⟩ "subj" "msg" "user@x.com" "" "" "incident" "s1"
      ⟨200, "", "ok"⟩ (by decide) (by simp)
    simpa [Client.instanceUrl] using h
  · have h := C7_email_pairing.2.2 ⟨"dev", true⟩ "subj" "msg" "user@x.com" "" "" "" "s1"
      ⟨200, "", "ok"⟩
    simpa [Client.instanceUrl] using h

end SN
